import Mathlib

/-!
Verification development for the zeta markdown dialect compiler
(a Rust pipeline: scanner, parser, and two platform compilers).

The Rust sources are embedded shallowly:
* pure data types become Lean inductives and structures;
* the stateful Scanner and Parser become explicit state records with
  step functions; bounded loops are driven by a fuel argument that is
  always large enough for the inputs considered (each loop body advances
  the cursor by at least one character, so a fuel of source length plus
  one can never be exhausted before the loop condition triggers);
* calls into external crates (serde_yaml deserialization and
  serialization, the image path resolver that shells out to git) are
  modelled as explicit function parameters, so theorems are stated for
  arbitrary or concrete instantiations of those externals;
* diagnostics printed to stdout by print.rs are modelled as a log list
  carried in the parser state;
* the iteration order of the Rust HashMap holding collected inline
  footnotes is unspecified and seed dependent; it is modelled by a seed
  parameter that rotates the insertion-ordered entry list.

All machine integers involved (cursor positions, row and column
counters, nesting levels) are small cardinal counters that the program
only ever increments, so they are embedded as Nat.
-/

set_option maxRecDepth 20000

namespace Zeta

/-- A single apostrophe character, written via its code point. -/
def squote : String := String.mk [Char.ofNat 39]

/-! ## Data model (ast.rs, token.rs, macro.rs) -/

/-- macro.rs `Platform`. -/
inductive Platform where
  | Zenn
  | Qiita
deriving DecidableEq, Repr

/-- ast.rs `MessageType`. -/
inductive MessageType where
  | Info
  | Warn
  | Alert
deriving DecidableEq, Repr

/-- ast.rs `ZetaFrontmatter`. -/
structure ZetaFrontmatter where
  title : String
  emoji : String
  type : String
  topics : List String
  published : Bool
  only : Option Platform
deriving DecidableEq, Repr

/-- macro.rs `StringMacro` (`Macro<Option<String>>`). -/
structure StringMacro where
  zenn : Option String
  qiita : Option String
deriving DecidableEq, Repr

/-- ast.rs `MarkdownDoc<F, E>`. -/
structure MarkdownDoc (F E : Type) where
  frontmatter : F
  elements : List E
deriving DecidableEq, Repr

/-- ast.rs `Element`. The `Macro` payload (macro.rs `ParsedMacro`, a pair
of element vectors keyed by platform) is inlined as two list fields. -/
inductive Element where
  | Text (text : String)
  | Url (url : String)
  | Macro (zenn : List Element) (qiita : List Element)
  | LinkCard (card_type : String) (url : String)
  | Image (alt : String) (url : String)
  | InlineFootnote (content : String)
  | Footnote (id : String)
  | Message (level : Nat) (msg_type : MessageType) (body : List Element)
  | Details (level : Nat) (title : String) (body : List Element)
deriving Repr

/-- ast.rs `ParsedMd`. -/
abbrev ParsedMd := MarkdownDoc ZetaFrontmatter Element

/-! ## Scanner data (scanner.rs, token.rs) -/

/-- scanner.rs `ScanErrorType`. -/
inductive ScanErrorType where
  | Incomplete (s : String)
  | InvalidMacro
deriving DecidableEq, Repr

/-- scanner.rs `ScanError`. -/
structure ScanError where
  error_type : ScanErrorType
  row : Nat
  col : Nat
deriving DecidableEq, Repr

mutual
/-- token.rs `Token`: a token type with a source position. -/
inductive Token where
  | mk (token_type : TokenType) (row : Nat) (col : Nat)

/-- token.rs `TokenType`. The `Macro` payload (macro.rs
`TokenizedMacro`, a pair of token vectors) is inlined as two fields. -/
inductive TokenType where
  | Text (s : String)
  | Url (s : String)
  | LinkCard (card_type : String) (url : String)
  | Image (alt : String) (url : String)
  | InlineFootnote (s : String)
  | Footnote (s : String)
  | MessageBegin (level : Nat) (type : String)
  | DetailsBegin (level : Nat) (title : String)
  | MessageOrDetailsEnd (level : Nat)
  | Macro (zenn : List Token) (qiita : List Token)
end

/-- scanner.rs `Scanner`: the cursor state of one scanner instance. -/
structure SState where
  source : List Char
  current : Nat
  start : Nat
  row : Nat
  col : Nat
  tokens : List Token
  errors : List ScanError

namespace Scanner

/-- scanner.rs `Scanner::with_row_col`. -/
def with_row_col (source : List Char) (row col : Nat) : SState :=
  ⟨source, 0, 0, row, col, [], []⟩

/-- scanner.rs `Scanner::is_at_end`. -/
def is_at_end (s : SState) : Bool :=
  s.source.length ≤ s.current

/-- scanner.rs `Scanner::peek`. -/
def peek (s : SState) : Option Char :=
  s.source.get? s.current

/-- scanner.rs `Scanner::advance`: consume one character, updating the
row and column counters (the column counter keeps incrementing when the
cursor is already past the end, exactly as in the source). -/
def advance (s : SState) : Option Char × SState :=
  let result := s.source.get? s.current
  let s := { s with current := s.current + 1 }
  match result with
  | some c =>
    if c = Char.ofNat 10 then (result, { s with row := s.row + 1, col := 1 })
    else (result, { s with col := s.col + 1 })
  | none => (result, { s with col := s.col + 1 })

/-- Apply `advance` a fixed number of times, discarding the characters. -/
def advanceN : Nat → SState → SState
  | 0, s => s
  | n + 1, s => advanceN n (advance s).2

/-- scanner.rs `Scanner::matches_keyword`: compare the keyword with the
slice `source[current .. current + keyword.len()]`; a range reaching past
the end yields `false`. All keywords in the source are ASCII, so the Rust
byte length equals the character count used here. -/
def matches_keyword (s : SState) (keyword : String) : Bool :=
  if s.current + keyword.length ≤ s.source.length then
    (s.source.drop s.current).take keyword.length == keyword.toList
  else false

/-- scanner.rs `Scanner::delete_buffer`. -/
def delete_buffer (s : SState) : SState :=
  { s with start := s.current }

/-- scanner.rs `Scanner::consume_buffer`: the slice
`source[start .. current]`, or the empty string when the range is
invalid (`unwrap_or_default`), with `start` moved up to `current`. -/
def consume_buffer (s : SState) : String × SState :=
  let text :=
    if s.start ≤ s.current ∧ s.current ≤ s.source.length then
      String.mk ((s.source.drop s.start).take (s.current - s.start))
    else ""
  (text, { s with start := s.current })

/-- scanner.rs `Scanner::expect_string`. -/
def expect_string (s : SState) (string : String) : Bool × SState :=
  if matches_keyword s string then (true, advanceN string.length s)
  else (false, s)

/-- scanner.rs `Scanner::make_token` (uses the scanner position reached
after consuming the construct). -/
def make_token (s : SState) (token_type : TokenType) : Token :=
  ⟨token_type, s.row, s.col⟩

/-- Push a token onto the output list (`self.tokens.push(...)`). -/
def push_token (s : SState) (t : Token) : SState :=
  { s with tokens := s.tokens ++ [t] }

/-- scanner.rs `Scanner::collect_text` (always pushes, even when the
buffered text is empty). -/
def collect_text (s : SState) : SState :=
  let (text, s) := consume_buffer s
  push_token s (make_token s (.Text text))

/-- scanner.rs `Scanner::extract_while` (fuelled loop; the fuel of
source length plus one dominates the number of possible advances). -/
def extract_while_go (c : Char) : Nat → SState → SState
  | 0, s => s
  | f + 1, s =>
    if peek s = some c ∧ ¬ is_at_end s then extract_while_go c f (advance s).2
    else s

/-- scanner.rs `Scanner::extract_while`. -/
def extract_while (c : Char) (s : SState) : SState :=
  extract_while_go c (s.source.length + 1) s

/-- scanner.rs `Scanner::consume_spaces`. -/
def consume_spaces (s : SState) : SState :=
  extract_while (Char.ofNat 32) s

/-- Loop body of scanner.rs `Scanner::extract_until_unchecked`. -/
def extract_until_unchecked_go (until_ : String) (first : Char) : Nat → SState → SState
  | 0, s => s
  | f + 1, s =>
    if (peek s = some first ∧ matches_keyword s until_) ∨ is_at_end s then s
    else extract_until_unchecked_go until_ first f (advance s).2

/-- scanner.rs `Scanner::extract_until_unchecked`: advance until the
full delimiter string is next (or the end is reached). -/
def extract_until_unchecked (until_ : String) (s : SState) : SState :=
  extract_until_unchecked_go until_ (until_.toList.headD (Char.ofNat 0))
    (s.source.length + 1) s

/-- scanner.rs `Scanner::extract_until`: on reaching the end of input,
restore the saved cursor, advance one character, and report
`Incomplete` at the position after that advance. -/
def extract_until (end_ : String) (s : SState) : Option ScanError × SState :=
  let saved := (s.current, s.row, s.col)
  let s := extract_until_unchecked end_ s
  if is_at_end s then
    let s := { s with current := saved.1, row := saved.2.1, col := saved.2.2 }
    let s := (advance s).2
    (some ⟨.Incomplete end_, s.row, s.col⟩, s)
  else (none, s)

/-- Fuelled loop for counting the extra colons of a block fence
(`while self.expect_string(":") { level += 1 }`). -/
def count_colons : Nat → SState → Nat × SState
  | 0, s => (0, s)
  | f + 1, s =>
    let (b, s) := expect_string s ":"
    if b then
      let (n, s) := count_colons f s
      (n + 1, s)
    else (0, s)

/-- Fuelled loop collecting a URL
(`while let Some(c) = self.peek() { if c.is_whitespace() { break; } ... }`).
Rust `char::is_whitespace` agrees with `Char.isWhitespace` on the ASCII
characters that occur in the sources considered. -/
def url_chars_go : Nat → SState → SState
  | 0, s => s
  | f + 1, s =>
    match peek s with
    | none => s
    | some c =>
      if c.isWhitespace then s
      else if is_at_end s then s
      else url_chars_go f (advance s).2

/-- scanner.rs `Scanner::block_element`: dispatch after a newline.
Note that the source saves `c_next` before `consume_spaces` runs. -/
def block_element (s : SState) : Option ScanError × SState :=
  match peek s with
  | none => (none, s)
  | some c_next =>
    let s := consume_spaces s
    if c_next = Char.ofNat 104 then  -- h
      if ¬ (matches_keyword s "https://" ∨ matches_keyword s "http://") then
        (none, (advance s).2)
      else
        let s := collect_text s
        let s := url_chars_go (s.source.length + 1) s
        let (url, s) := consume_buffer s
        (none, push_token s (make_token s (.Url url)))
    else if c_next = Char.ofNat 58 then  -- colon
      if ¬ matches_keyword s ":::" then (none, s)
      else
        let s := collect_text s
        let (_, s) := expect_string s ":::"
        let (level, s) := count_colons (s.source.length + 1) s
        if matches_keyword s "message" then
          let (_, s) := expect_string s "message"
          let s := consume_spaces s
          let s := delete_buffer s
          match extract_until "\n" s with
          | (some e, s) => (some e, s)
          | (none, s) =>
            let (message_type, s) := consume_buffer s
            let s := delete_buffer s
            (none, push_token s (make_token s (.MessageBegin level message_type)))
        else if matches_keyword s "details" then
          let (_, s) := expect_string s "details"
          let s := consume_spaces s
          let s := delete_buffer s
          match extract_until "\n" s with
          | (some e, s) => (some e, s)
          | (none, s) =>
            let (title, s) := consume_buffer s
            let s := delete_buffer s
            (none, push_token s (make_token s (.DetailsBegin level title)))
        else
          let s := delete_buffer s
          (none, push_token s (make_token s (.MessageOrDetailsEnd level)))
    else (none, s)

/-- scanner.rs `Scanner::scan`: process one construct starting at the
cursor.  `osm` models `serde_yaml::from_str::<StringMacro>` (an error
optionally carries the reported line and column); `recBody` is the
recursive body scan used for macro contents
(`Scanner::with_row_col(...).scan_body()`). -/
def scanStepG (osm : String → Except (Option (Nat × Nat)) StringMacro)
    (recBody : List Char → Nat → Nat → Except (List ScanError) (List Token))
    (s : SState) : Option ScanError × SState :=
  match peek s with
  | none => (none, s)
  | some c =>
    if c = Char.ofNat 33 then  -- exclamation mark: image
      if ¬ matches_keyword s "![" then (none, (advance s).2)
      else
        let s := collect_text s
        let (_, s) := expect_string s "!["
        let s := delete_buffer s
        match extract_until "]" s with
        | (some e, s) => (some e, s)
        | (none, s) =>
          let (alt, s) := consume_buffer s
          let (_, s) := expect_string s "]("
          let s := delete_buffer s
          match extract_until ")" s with
          | (some e, s) => (some e, s)
          | (none, s) =>
            let (url, s) := consume_buffer s
            let (_, s) := expect_string s ")"
            let s := delete_buffer s
            (none, push_token s (make_token s (.Image alt url)))
    else if c = Char.ofNat 64 then  -- at sign: link card
      if ¬ matches_keyword s "@[" then (none, (advance s).2)
      else
        let s := collect_text s
        let (_, s) := expect_string s "@["
        let s := delete_buffer s
        match extract_until "]" s with
        | (some e, s) => (some e, s)
        | (none, s) =>
          let (card_type, s) := consume_buffer s
          let (_, s) := expect_string s "]("
          let s := delete_buffer s
          match extract_until ")" s with
          | (some e, s) => (some e, s)
          | (none, s) =>
            let (url, s) := consume_buffer s
            let (_, s) := expect_string s ")"
            let s := delete_buffer s
            (none, push_token s (make_token s (.LinkCard card_type url)))
    else if c = Char.ofNat 94 then  -- caret: inline footnote
      if ¬ matches_keyword s "^[" then (none, (advance s).2)
      else
        let s := collect_text s
        let (_, s) := expect_string s "^["
        let s := delete_buffer s
        match extract_until "]" s with
        | (some e, s) => (some e, s)
        | (none, s) =>
          let (footnote, s) := consume_buffer s
          let (_, s) := expect_string s "]"
          let s := delete_buffer s
          (none, push_token s (make_token s (.InlineFootnote footnote)))
    else if c = Char.ofNat 91 then  -- open bracket: footnote reference
      if ¬ matches_keyword s "[^" then (none, (advance s).2)
      else
        let saved_start := s.current
        let s := collect_text s
        let (_, s) := expect_string s "[^"
        let s := delete_buffer s
        match extract_until "]" s with
        | (some e, s) => (some e, s)
        | (none, s) =>
          let (footnote, s) := consume_buffer s
          let (_, s) := expect_string s "]"
          let s := delete_buffer s
          if matches_keyword s ":" then (none, { s with start := saved_start })
          else (none, push_token s (make_token s (.Footnote footnote)))
    else if c = Char.ofNat 96 then  -- backtick: opaque code span
      if matches_keyword s "```" then
        let (_, s) := expect_string s "```"
        match extract_until "```" s with
        | (some e, s) => (some e, s)
        | (none, s) =>
          let (_, s) := expect_string s "```"
          (none, s)
      else
        let (_, s) := expect_string s "`"
        match extract_until "`" s with
        | (some e, s) => (some e, s)
        | (none, s) =>
          let (_, s) := expect_string s "`"
          (none, s)
    else if c = Char.ofNat 60 then  -- less-than: macro block
      if ¬ matches_keyword s "<macro>" then (none, (advance s).2)
      else
        let s := collect_text s
        let (_, s) := expect_string s "<macro>"
        let rc := (s.row, s.col)
        let s := delete_buffer s
        match extract_until "</macro>" s with
        | (some e, s) => (some e, s)
        | (none, s) =>
          let (body, s) := consume_buffer s
          let (_, s) := expect_string s "</macro>"
          let s := delete_buffer s
          match osm body with
          | .error lo =>
            let p := lo.getD (0, 0)
            (some ⟨.InvalidMacro, p.1, p.2⟩, s)
          | .ok yaml =>
            match recBody (yaml.zenn.getD "").toList rc.1 rc.2 with
            | .error es =>
              (some ⟨.InvalidMacro, rc.1, rc.2⟩, { s with errors := s.errors ++ es })
            | .ok zenn_tokens =>
              match recBody (yaml.qiita.getD "").toList rc.1 rc.2 with
              | .error es =>
                (some ⟨.InvalidMacro, rc.1, rc.2⟩, { s with errors := s.errors ++ es })
              | .ok qiita_tokens =>
                (none, push_token s (make_token s (.Macro zenn_tokens qiita_tokens)))
    else if c = Char.ofNat 10 then  -- newline: block elements
      block_element (advance s).2
    else (none, (advance s).2)

/-- The `while !self.is_at_end()` loop of scanner.rs
`Scanner::scan_body`, pushing each returned error. -/
def scanLoopG (step : SState → Option ScanError × SState) : Nat → SState → SState
  | 0, s => s
  | f + 1, s =>
    if is_at_end s then s
    else
      let (e, s) := step s
      let s := match e with
        | some err => { s with errors := s.errors ++ [err] }
        | none => s
      scanLoopG step f s

/-- scanner.rs `Scanner::scan_body` applied to a given scanner state. -/
def runScanBody (step : SState → Option ScanError × SState) (s : SState) :
    Except (List ScanError) (List Token) :=
  let s := scanLoopG step (s.source.length + 1) s
  let s := collect_text s
  if s.errors.isEmpty then .ok s.tokens else .error s.errors

/-- `scan_body` with a recursion-depth fuel for nested macro scans (the
Rust recursion is bounded by the nesting of the source text; the fuel
used below always dominates it). -/
def scanDepth (osm : String → Except (Option (Nat × Nat)) StringMacro) :
    Nat → List Char → Nat → Nat → Except (List ScanError) (List Token)
  | 0, _, _, _ => .ok []
  | d + 1, src, row, col =>
    runScanBody (scanStepG osm (scanDepth osm d)) (with_row_col src row col)

/-- scanner.rs `Scanner::scan_body` on a fresh scanner
(`Scanner::new`, positions starting at row 1, column 1). -/
def scan_body (osm : String → Except (Option (Nat × Nat)) StringMacro)
    (src : List Char) : Except (List ScanError) (List Token) :=
  scanDepth osm (src.length + 1) src 1 1

end Scanner

/-! ## Parser (parser.rs)

parser.rs in this snapshot is a character-based recursive parser.  It
predates the `level` field of ast.rs `Element` (it constructs
`Element::Message { msg_type, body }` and `Element::Details { title,
body }` without a level, and never builds `LinkCard` or `Footnote`
elements); the `Element` declaration it was written against is not part
of the snapshot, so the output type `PElement` below is reconstructed
from the constructor calls appearing in parser.rs itself. -/

/-- The element type produced by parser.rs (see the section comment). -/
inductive PElement where
  | Text (s : String)
  | Url (s : String)
  | Macro (m : StringMacro)
  | InlineFootnote (s : String)
  | Image (alt : String) (url : String)
  | Message (msg_type : MessageType) (body : List PElement)
  | Details (title : String) (body : List PElement)
deriving Repr

/-- parser.rs `ParseErrorType` (the complete list of variants). -/
inductive ParseErrorType where
  | Incomplete (s : String)
  | InvalidFrontMatter
  | InvalidMacro
deriving DecidableEq, Repr

/-- parser.rs `ParseError`. -/
structure ParseError where
  error_type : ParseErrorType
  row : Nat
  col : Nat
deriving DecidableEq, Repr

/-- The parsed file built by parser.rs `Parser::parse_file`
(`MarkdownFile`); its declaration is not in the snapshot, its two fields
are reconstructed from the construction site in parser.rs. -/
abbrev MarkdownFile := MarkdownDoc ZetaFrontmatter PElement

/-- A diagnostic printed through print.rs `zeta_error_position`
(message text, row, column); stdout is modelled as a log list. -/
abbrev PLog := String × Nat × Nat

/-- parser.rs `Parser`: the cursor state of one parser instance, plus
the stdout diagnostics log. -/
structure PState where
  source : List Char
  position : Nat
  start : Nat
  row : Nat
  col : Nat
  result : List PElement
  errors : List ParseError
  logs : List PLog

namespace Parser

/-- parser.rs `Parser::new`. -/
def new (source : List Char) : PState :=
  ⟨source, 0, 0, 1, 1, [], [], []⟩

/-- parser.rs `Parser::is_at_end`. -/
def is_at_end (s : PState) : Bool :=
  s.source.length ≤ s.position

/-- parser.rs `Parser::peek`. -/
def peek (s : PState) : Option Char :=
  s.source.get? s.position

/-- parser.rs `Parser::peek_next`. -/
def peek_next (s : PState) : Option Char :=
  s.source.get? (s.position + 1)

/-- parser.rs `Parser::advance`. -/
def advance (s : PState) : Option Char × PState :=
  let result := s.source.get? s.position
  let s := { s with position := s.position + 1 }
  match result with
  | some c =>
    if c = Char.ofNat 10 then (result, { s with row := s.row + 1, col := 1 })
    else (result, { s with col := s.col + 1 })
  | none => (result, { s with col := s.col + 1 })

/-- Apply `advance` a fixed number of times. -/
def advanceN : Nat → PState → PState
  | 0, s => s
  | n + 1, s => advanceN n (advance s).2

/-- parser.rs `Parser::matches_keyword` (ASCII keywords, so the Rust
byte length equals the character count). -/
def matches_keyword (s : PState) (keyword : String) : Bool :=
  if s.position + keyword.length ≤ s.source.length then
    (s.source.drop s.position).take keyword.length == keyword.toList
  else false

/-- parser.rs `Parser::delete_buffer`. -/
def delete_buffer (s : PState) : PState :=
  { s with start := s.position }

/-- parser.rs `Parser::consume_buffer`: `None` when the buffer is
empty, otherwise the slice `source[start .. position]`. -/
def consume_buffer (s : PState) : Option String × PState :=
  if s.start = s.position then (none, s)
  else
    let text := String.mk ((s.source.drop s.start).take (s.position - s.start))
    (some text, { s with start := s.position })

/-- parser.rs `Parser::expect_string`. -/
def expect_string (s : PState) (string : String) : Bool × PState :=
  if matches_keyword s string then (true, advanceN string.length s)
  else (false, s)

/-- parser.rs `Parser::collect_text` (pushes only a non-empty buffer). -/
def collect_text (s : PState) : PState :=
  match consume_buffer s with
  | (some buffer, s) => { s with result := s.result ++ [.Text buffer] }
  | (none, s) => s

/-- Loop body of parser.rs `Parser::extract_until_unchecked` (which,
unlike the scanner version, stops at a single character). -/
def extract_until_unchecked_go (until_ : Char) : Nat → PState → PState
  | 0, s => s
  | f + 1, s =>
    if peek s ≠ some until_ ∧ ¬ is_at_end s then
      extract_until_unchecked_go until_ f (advance s).2
    else s

/-- parser.rs `Parser::extract_until_unchecked`. -/
def extract_until_unchecked (until_ : Char) (s : PState) : PState :=
  extract_until_unchecked_go until_ (s.source.length + 1) s

/-- parser.rs `Parser::extract_until`: note that it only scans for the
FIRST character of `end_` (`end.chars().next()`), logs an
`Incomplete brackets` diagnostic at the end-of-input position, restores
the saved cursor, advances one character, and reports `Incomplete` at
the position after that advance. -/
def extract_until (end_ : String) (s : PState) : Option ParseError × PState :=
  let saved := (s.position, s.row, s.col)
  let s := extract_until_unchecked (end_.toList.headD (Char.ofNat 0)) s
  if is_at_end s then
    let s := { s with logs := s.logs ++ [("Incomplete brackets", s.row, s.col)] }
    let s := { s with position := saved.1, row := saved.2.1, col := saved.2.2 }
    let s := (advance s).2
    (some ⟨.Incomplete end_, s.row, s.col⟩, s)
  else (none, s)

/-- parser.rs `Parser::advance_spaces` (fuelled loop). -/
def advance_spaces_go : Nat → PState → PState
  | 0, s => s
  | f + 1, s =>
    if peek s = some (Char.ofNat 32) then advance_spaces_go f (advance s).2
    else s

/-- parser.rs `Parser::advance_spaces`. -/
def advance_spaces (s : PState) : PState :=
  advance_spaces_go (s.source.length + 1) s

/-- Fuelled loop for `while matches!(self.peek(), Some(':')) { self.advance(); }`
used by `Parser::message` and `Parser::details`. -/
def skip_colons_go : Nat → PState → PState
  | 0, s => s
  | f + 1, s =>
    if peek s = some (Char.ofNat 58) then skip_colons_go f (advance s).2
    else s

/-- Skip a run of colons. -/
def skip_colons (s : PState) : PState :=
  skip_colons_go (s.source.length + 1) s

/-- Fuelled loop collecting a URL in parser.rs `Parser::url`
(`while self.peek().is_some() && !self.peek().unwrap().is_whitespace()`). -/
def url_chars_go : Nat → PState → PState
  | 0, s => s
  | f + 1, s =>
    match peek s with
    | none => s
    | some c => if ¬ c.isWhitespace then url_chars_go f (advance s).2 else s

/-- parser.rs `Parser::url`. -/
def url (s : PState) : PState :=
  let s := collect_text s
  let s := url_chars_go (s.source.length + 1) s
  let (u, s) := consume_buffer s
  { s with result := s.result ++ [.Url (u.getD "")] }

/-- parser.rs `Parser::square_brackets_or_link` (consumes a bracketed
span and, if an opening parenthesis follows, a parenthesised span; it
pushes no element, the characters stay in the text buffer). -/
def square_brackets_or_link (s : PState) : Option ParseError × PState :=
  match extract_until "]" s with
  | (some e, s) => (some e, s)
  | (none, s) =>
    let (_, s) := expect_string s "]"
    if matches_keyword s "(" then
      match extract_until ")" s with
      | (some e, s) => (some e, s)
      | (none, s) =>
        let (_, s) := expect_string s ")"
        (none, s)
    else (none, s)

/-- parser.rs `Parser::macro_call`.  `omac` models
`serde_yaml::from_str::<Macro>` (the old `Macro` declaration is not in
the snapshot; macro.rs `StringMacro` is its closest surviving shape). -/
def macro_call (omac : String → Option StringMacro) (s : PState) :
    Option ParseError × PState :=
  let s := collect_text s
  let (_, s) := expect_string s "<macro>"
  let s := delete_buffer s
  match extract_until "</macro>" s with
  | (some e, s) => (some e, s)
  | (none, s) =>
    let (my, s) := consume_buffer s
    let macro_yaml := my.getD ""
    let (_, s) := expect_string s "</macro>"
    let s := delete_buffer s
    match omac macro_yaml with
    | none => (some ⟨.InvalidMacro, s.row, s.col⟩, s)
    | some m => (none, { s with result := s.result ++ [.Macro m] })

/-- parser.rs `Parser::inline_footnote`.  The Rust code unwraps the
consumed buffer (panicking on an empty footnote); the inputs considered
never take that path, it is embedded as an empty default. -/
def inline_footnote (s : PState) : Option ParseError × PState :=
  let s := collect_text s
  let (_, s) := expect_string s "^["
  let s := delete_buffer s
  match extract_until "]" s with
  | (some e, s) => (some e, s)
  | (none, s) =>
    let (fn, s) := consume_buffer s
    let s := { s with result := s.result ++ [.InlineFootnote (fn.getD "")] }
    let (_, s) := expect_string s "]"
    let s := delete_buffer s
    (none, s)

/-- parser.rs `Parser::image` (both buffer unwraps embedded as empty
defaults; the inputs considered never hit the `None` case). -/
def image (s : PState) : Option ParseError × PState :=
  let s := collect_text s
  let (_, s) := expect_string s "!["
  let s := delete_buffer s
  match extract_until "]" s with
  | (some e, s) => (some e, s)
  | (none, s) =>
    let (alt, s) := consume_buffer s
    let (_, s) := expect_string s "]("
    let s := delete_buffer s
    match extract_until ")" s with
    | (some e, s) => (some e, s)
    | (none, s) =>
      let (u, s) := consume_buffer s
      let (_, s) := expect_string s ")"
      let s := delete_buffer s
      (none, { s with result := s.result ++ [.Image (alt.getD "") (u.getD "")] })

/-- parser.rs `Parser::code_block`.  Note that `extract_until` scans
only for the first character of its argument, so the fenced case stops
at the next single backtick. -/
def code_block (s : PState) : Option ParseError × PState :=
  if peek_next s ≠ some (Char.ofNat 96) then
    let (_, s) := expect_string s "`"
    match extract_until "`" s with
    | (some e, s) => (some e, s)
    | (none, s) =>
      let (_, s) := expect_string s "`"
      (none, s)
  else if matches_keyword s "```" then
    let (_, s) := expect_string s "```"
    match extract_until "```" s with
    | (some e, s) => (some e, s)
    | (none, s) =>
      let (_, s) := expect_string s "```"
      (none, s)
  else (none, s)

/-- parser.rs `Parser::details`.  `rec` is the recursive
`Parser::new(content).parse()` call on the block body; its diagnostics
are appended to the outer log (stdout is global). -/
def details
    (rec : List Char → Except (List ParseError) (List PElement) × List PLog)
    (s : PState) : Option ParseError × PState :=
  let s := collect_text s
  let s := skip_colons s
  let (_, s) := expect_string s "details"
  let s := advance_spaces s
  let s := delete_buffer s
  let s := extract_until_unchecked (Char.ofNat 10) s
  let (t, s) := consume_buffer s
  let title := t.getD ""
  let (_, s) := expect_string s "\n"
  let s := delete_buffer s
  match extract_until ":::" s with
  | (some e, s) => (some e, s)
  | (none, s) =>
    let (c, s) := consume_buffer s
    let content := c.getD ""
    let (res, lgs) := rec content.toList
    let s := { s with logs := s.logs ++ lgs }
    let s := match res with
      | .ok body => { s with result := s.result ++ [.Details title body] }
      | .error es => { s with errors := s.errors ++ es }
    let s := skip_colons s
    let s := delete_buffer s
    (none, s)

/-- parser.rs `Parser::message`.  The message-type keywords are only
peeked at (`matches_keyword` does not consume); an unknown keyword is
diagnosed via `zeta_error_position` (modelled in the log) and falls
back to `MessageType::Info`.  The body buffer unwrap is embedded as an
empty default (never hit by the inputs considered). -/
def message
    (rec : List Char → Except (List ParseError) (List PElement) × List PLog)
    (s : PState) : Option ParseError × PState :=
  let s := collect_text s
  let s := skip_colons s
  let (_, s) := expect_string s "message"
  let s := advance_spaces s
  let (message_type, s) :=
    if matches_keyword s "info" then (MessageType.Info, s)
    else if matches_keyword s "warn" then (MessageType.Warn, s)
    else if matches_keyword s "alert" then (MessageType.Alert, s)
    else
      (MessageType.Info,
        { s with logs := s.logs ++ [("Invalid message type", s.row, s.col)] })
  let s := extract_until_unchecked (Char.ofNat 10) s
  let (_, s) := expect_string s "\n"
  let s := delete_buffer s
  match extract_until ":::" s with
  | (some e, s) => (some e, s)
  | (none, s) =>
    let (c, s) := consume_buffer s
    let content := c.getD ""
    let (res, lgs) := rec content.toList
    let s := { s with logs := s.logs ++ lgs }
    let s := match res with
      | .ok body => { s with result := s.result ++ [.Message message_type body] }
      | .error es => { s with errors := s.errors ++ es }
    let s := skip_colons s
    let s := delete_buffer s
    (none, s)

/-- parser.rs `Parser::parse_block_element`: dispatch after a newline. -/
def parse_block_element
    (rec : List Char → Except (List ParseError) (List PElement) × List PLog)
    (s : PState) : Option ParseError × PState :=
  match peek s with
  | none => (none, s)
  | some c_next =>
    if c_next = Char.ofNat 104 then  -- h
      if ¬ (matches_keyword s "https://" ∨ matches_keyword s "http://") then
        (none, (advance s).2)
      else (none, url s)
    else if c_next = Char.ofNat 58 then  -- colon
      if matches_keyword s ":::details" then details rec s
      else if matches_keyword s ":::message" then message rec s
      else (none, s)
    else if c_next = Char.ofNat 96 then  -- backtick
      code_block s
    else if c_next = Char.ofNat 33 then  -- exclamation mark
      if ¬ matches_keyword s "![" then (none, s)
      else image s
    else (none, s)

/-- parser.rs `Parser::parse_element`: process one construct. -/
def parseStepG (omac : String → Option StringMacro)
    (rec : List Char → Except (List ParseError) (List PElement) × List PLog)
    (s : PState) : Option ParseError × PState :=
  match peek s with
  | none => (none, s)
  | some c =>
    if c = Char.ofNat 91 then  -- open bracket
      square_brackets_or_link s
    else if c = Char.ofNat 60 then  -- less-than
      if ¬ matches_keyword s "<macro>" then (none, (advance s).2)
      else macro_call omac s
    else if c = Char.ofNat 94 then  -- caret
      if ¬ matches_keyword s "^[" then (none, (advance s).2)
      else inline_footnote s
    else if c = Char.ofNat 10 then  -- newline
      parse_block_element rec (advance s).2
    else (none, (advance s).2)

/-- The `while !self.is_at_end()` loop of parser.rs `Parser::parse`,
pushing each returned error. -/
def parseLoopG (step : PState → Option ParseError × PState) :
    Nat → PState → PState
  | 0, s => s
  | f + 1, s =>
    if is_at_end s then s
    else
      let (e, s) := step s
      let s := match e with
        | some err => { s with errors := s.errors ++ [err] }
        | none => s
      parseLoopG step f s

/-- parser.rs `Parser::parse` applied to a given parser state, also
returning the final state (needed by `parse_file`). -/
def runParseState (step : PState → Option ParseError × PState) (s : PState) :
    PState × Except (List ParseError) (List PElement) :=
  let s := parseLoopG step (s.source.length + 1) s
  let s := collect_text s
  (s, if s.errors.isEmpty then .ok s.result else .error s.errors)

/-- `parse` with a recursion-depth fuel for nested block and macro
parses (the Rust recursion is bounded by the nesting of the source
text; the fuel used below always dominates it). -/
def parseDepth (omac : String → Option StringMacro) :
    Nat → List Char → Except (List ParseError) (List PElement) × List PLog
  | 0, _ => (.ok [], [])
  | d + 1, src =>
    let (s, r) := runParseState (parseStepG omac (parseDepth omac d)) (new src)
    (r, s.logs)

/-- parser.rs `Parser::parse` on a fresh parser, returning the result
together with the stdout diagnostics log. -/
def parse (omac : String → Option StringMacro) (src : List Char) :
    Except (List ParseError) (List PElement) × List PLog :=
  parseDepth omac (src.length + 1) src

/-- parser.rs `Parser::parse_file`.  `ofm` models
`serde_yaml::from_str::<ZetaFrontmatter>` (an error optionally carries
the location reported by the deserializer); on a deserialization error
the location line is incremented by one, the error is pushed, and the
accumulated error list is returned at once — the body is not parsed.
The frontmatter header unwrap is embedded as an empty default (never
hit by the inputs considered). -/
def parse_file (ofm : String → Except (Option (Nat × Nat)) ZetaFrontmatter)
    (omac : String → Option StringMacro) (src : List Char) :
    Except (List ParseError) MarkdownFile × List PLog :=
  let s := new src
  let (_, s) := expect_string s "---\n"
  let s := delete_buffer s
  let (e, s) := extract_until "---\n" s
  let s := match e with
    | some err => { s with errors := s.errors ++ [err] }
    | none => s
  let (h, s) := consume_buffer s
  let header := h.getD ""
  let (_, s) := expect_string s "---\n"
  let s := delete_buffer s
  match ofm header with
  | .ok frontmatter =>
    let (s, r) := runParseState (parseStepG omac (parseDepth omac (src.length + 1))) s
    (match r with
     | .ok elements => (.ok ⟨frontmatter, elements⟩, s.logs)
     | .error es => (.error es, s.logs))
  | .error lo =>
    let location := match lo with
      | some l => (l.1 + 1, l.2)
      | none => (s.row, s.col)
    (.error (s.errors ++ [⟨.InvalidFrontMatter, location.1, location.2⟩]), s.logs)

end Parser

/-! ## Compilers (compiler.rs)

External effects are modelled as parameters:
* `ser` stands for the serde_yaml serialization of the platform
  frontmatter struct;
* `resolver` stands for `image_path_github` (which reads Zeta.toml and
  shells out to git, degrading to the unchanged path on failure);
* `seed` selects one of the possible iteration orders of the Rust
  `HashMap` holding collected inline footnotes — the order is
  unspecified and differs between hash seeds, which is modelled as a
  rotation of the insertion-ordered entry list.

compiler.rs matches on `Element` without a `LinkCard` arm (it predates
that variant of ast.rs `Element`); the embedding renders `LinkCard` as
the empty string, a case no claim exercises. -/

/-- compiler.rs `QiitaFrontmatter` (`private` is a Lean keyword, hence
the trailing underscore). -/
structure QiitaFrontmatter where
  title : String
  tags : List String
  private_ : Bool
  updated_at : String
  id : Option String
  organization_url_name : Option String
  slide : Bool
  ignorePublish : Bool
deriving DecidableEq, Repr

/-- compiler.rs `ZennFrontmatter`. -/
structure ZennFrontmatter where
  title : String
  emoji : String
  type : String
  topics : List String
  published : Bool
deriving DecidableEq, Repr

/-- compiler.rs `QiitaCompiler`: the per-compile state.  `footnotes` is
a `HashSet<String>` that the source only ever inserts into;
`inline_footnotes` is a `HashMap<String, String>` kept here as the
insertion-ordered entry list. -/
structure QState where
  existing_fm : Option QiitaFrontmatter
  footnotes : List String
  inline_footnotes : List (String × String)
deriving DecidableEq, Repr

/-- One possible iteration order of a Rust `HashMap`, selected by a
seed: a rotation of the insertion-ordered entries.  Empty and singleton
maps have a single order, matching the real map. -/
def mapIterOrder (seed : Nat) (l : List (String × String)) : List (String × String) :=
  l.drop (seed % l.length) ++ l.take (seed % l.length)

namespace QiitaCompiler

/-- The footnote-definition lines appended by compiler.rs
`QiitaCompiler::compile_elements`
(`for (name, content) in &self.inline_footnotes { ... }`). -/
def inline_defs (seed : Nat) (m : List (String × String)) : String :=
  String.join ((mapIterOrder seed m).map
    (fun p => "\n[^" ++ p.1 ++ "]: " ++ p.2 ++ "\n"))

/-- The identifier search loop of the `Element::InlineFootnote` arm of
compiler.rs `QiitaCompiler::compile_element`: the first
`zeta.inline.<i>` (i counted from 1) not yet a key of the inline
footnote map.  The loop is fuelled by the map size plus one, which by
pigeonhole always suffices; the fuel-exhausted fallback is
unreachable. -/
def choose_name_go (keys : List String) : Nat → Nat → String
  | 0, i => "zeta.inline." ++ toString i
  | f + 1, i =>
    let name := "zeta.inline." ++ toString i
    if keys.contains name then choose_name_go keys f (i + 1) else name

/-- The synthetic identifier assigned to the next inline footnote. -/
def choose_name (m : List (String × String)) : String :=
  choose_name_go (m.map Prod.fst) (m.length + 1) 1

mutual
/-- compiler.rs `QiitaCompiler::compile_element`. -/
def compile_element (resolver : String → String) (seed : Nat) (st : QState) :
    Element → QState × String
  | .Text text => (st, text)
  | .Url u => (st, "\n" ++ u ++ "\n")
  | .Macro _zenn qiita =>
    -- `self.compile_elements(macro_info.qiita)`: same compiler, so the
    -- inline-footnote definitions collected so far are appended here.
    let (st, s) := compile_element_list resolver seed st qiita
    (st, s ++ inline_defs seed st.inline_footnotes)
  | .LinkCard _ _ => (st, "")  -- no arm in compiler.rs; see section comment
  | .Image alt u =>
    let u := if u.startsWith "/images" then resolver u else u
    (st, "![" ++ alt ++ "](" ++ u ++ ")")
  | .InlineFootnote content =>
    let name := choose_name st.inline_footnotes
    ({ st with inline_footnotes := st.inline_footnotes ++ [(name, content)] },
      "[^" ++ name ++ "]")
  | .Footnote name =>
    ({ st with footnotes := st.footnotes ++ [name] }, "[^" ++ name ++ "]")
  | .Message _level msg_type body =>
    let t := match msg_type with
      | .Info => "info"
      | .Warn => "warn"
      | .Alert => "alert"
    -- `QiitaCompiler::new(None)`: a fresh compiler scoped to the block.
    let (stb, b) := compile_element_list resolver seed ⟨none, [], []⟩ body
    let b := b ++ inline_defs seed stb.inline_footnotes
    (st, ":::note " ++ t ++ "\n" ++ b ++ ":::")
  | .Details _level title body =>
    let (stb, b) := compile_element_list resolver seed ⟨none, [], []⟩ body
    let b := b ++ inline_defs seed stb.inline_footnotes
    (st, "<details><summary>" ++ title ++ "</summary>\n\n" ++ b ++ "</details>\n")

/-- The element-mapping fold inside compiler.rs
`QiitaCompiler::compile_elements` (before the definition append). -/
def compile_element_list (resolver : String → String) (seed : Nat) (st : QState) :
    List Element → QState × String
  | [] => (st, "")
  | e :: rest =>
    let (st, s1) := compile_element resolver seed st e
    let (st, s2) := compile_element_list resolver seed st rest
    (st, s1 ++ s2)
end

/-- compiler.rs `QiitaCompiler::compile_elements`: map the elements,
then append the collected inline-footnote definitions. -/
def compile_elements (resolver : String → String) (seed : Nat) (st : QState)
    (elements : List Element) : QState × String :=
  let (st, s) := compile_element_list resolver seed st elements
  (st, s ++ inline_defs seed st.inline_footnotes)

/-- Split a character list at every newline, realizing the Rust
`result.split('\n')` (a trailing newline yields a final empty line,
matching the Rust iterator collected into strings). -/
def split_newlines : List Char → List (List Char)
  | [] => [[]]
  | c :: rest =>
    if c = Char.ofNat 10 then [] :: split_newlines rest
    else
      match split_newlines rest with
      | [] => [[c]]
      | line :: lines => (c :: line) :: lines

/-- Join lines with newlines, realizing the Rust `lines.join("\n")`. -/
def join_newlines : List (List Char) → List Char
  | [] => []
  | [line] => line
  | line :: lines => line ++ Char.ofNat 10 :: join_newlines lines

/-- compiler.rs `QiitaCompiler::compile_frontmatter`.  `ser` models the
serde_yaml serialization of `QiitaFrontmatter`.  After serializing, the
source splits the text into lines, finds the line starting with
`updated_at:` (the `position(...).unwrap()` panics when no such line
exists, a case embedded as returning the text unchanged and never hit
by the serializers used here) and, unless that line already ends in a
quote, rewrites it re-quoted, slicing the line at byte 12; all values
considered are ASCII, so byte and character positions agree.  The line
handling is done on character lists because the corresponding String
library routines do not matter here beyond their list behaviour. -/
def compile_frontmatter (ser : QiitaFrontmatter → String)
    (existing_fm : Option QiitaFrontmatter) (frontmatter : ZetaFrontmatter) :
    String :=
  let fm : QiitaFrontmatter := match existing_fm with
    | some e =>
      ⟨frontmatter.title, frontmatter.topics, e.private_, e.updated_at,
        e.id, e.organization_url_name, e.slide, !frontmatter.published⟩
    | none =>
      ⟨frontmatter.title, frontmatter.topics, false, "", none, none, false,
        !frontmatter.published⟩
  let result := "---\n" ++ ser fm ++ "---\n"
  let lines := split_newlines result.toList
  match lines.findIdx? (fun l => "updated_at:".toList.isPrefixOf l) with
  | none => result
  | some i =>
    let line := lines.getD i []
    if "\"".toList.isSuffixOf line ∨ squote.toList.isSuffixOf line then result
    else
      String.mk (join_newlines
        (lines.set i
          (("updated_at: " ++ squote).toList ++ line.drop 12 ++ squote.toList)))

/-- compiler.rs `QiitaCompiler::compile`. -/
def compile (ser : QiitaFrontmatter → String) (resolver : String → String)
    (seed : Nat) (existing_fm : Option QiitaFrontmatter) (file : ParsedMd) :
    String :=
  compile_frontmatter ser existing_fm file.frontmatter ++
    (compile_elements resolver seed ⟨existing_fm, [], []⟩ file.elements).2

end QiitaCompiler

namespace ZennCompiler

mutual
/-- compiler.rs `ZennCompiler::compile_element`. -/
def compile_element : Element → String
  | .Text text => text
  | .Url u => "\n" ++ u ++ "\n"
  | .Macro zenn _qiita => compile_element_list zenn
  | .LinkCard _ _ => ""  -- no arm in compiler.rs; see section comment
  | .Image alt u => "![" ++ alt ++ "](" ++ u ++ ")"
  | .InlineFootnote content => "^[" ++ content ++ "]"
  | .Footnote name => "[^" ++ name ++ "]"
  | .Message level msg_type body =>
    let t := match msg_type with
      | .Info => ""
      | .Warn => ""
      | .Alert => "alert"
    ":::" ++ String.mk (List.replicate level (Char.ofNat 58)) ++ "message " ++
      t ++ "\n" ++ compile_element_list body ++ ":::" ++
      String.mk (List.replicate level (Char.ofNat 58))
  | .Details level title body =>
    ":::" ++ String.mk (List.replicate level (Char.ofNat 58)) ++ "details " ++
      title ++ "\n" ++ compile_element_list body ++ ":::" ++
      String.mk (List.replicate level (Char.ofNat 58))

/-- compiler.rs `ZennCompiler::compile_elements` (the Zenn compiler is
stateless). -/
def compile_element_list : List Element → String
  | [] => ""
  | e :: rest => compile_element e ++ compile_element_list rest
end

/-- compiler.rs `ZennCompiler::compile_header`.  `ser` models the
serde_yaml serialization of `ZennFrontmatter`. -/
def compile_header (ser : ZennFrontmatter → String)
    (frontmatter : ZetaFrontmatter) : String :=
  "---\n" ++
    ser ⟨frontmatter.title, frontmatter.emoji, frontmatter.type,
      frontmatter.topics, frontmatter.published⟩ ++
    "---\n"

/-- compiler.rs `ZennCompiler::compile`. -/
def compile (ser : ZennFrontmatter → String) (file : ParsedMd) : String :=
  compile_header ser file.frontmatter ++ compile_element_list file.elements

end ZennCompiler

/-! ## Concrete instantiations used by the claim theorems -/

/-- A macro deserialization oracle for inputs that contain no macro
block (it is never consulted on the inputs below). -/
def omacNone : String → Option StringMacro := fun _ => none

/-- A scanner macro oracle for inputs that contain no macro block. -/
def osmNone : String → Except (Option (Nat × Nat)) StringMacro := fun _ => .error none

/-- An image path resolver standing in for `image_path_github`; the
documents below contain no `/images` path, so it is never applied. -/
def idResolver : String → String := fun s => s

/-- A Qiita frontmatter serializer that emits an already-quoted
`updated_at` line (as serde_yaml does for the default empty value). -/
def qserStub : QiitaFrontmatter → String := fun _ => "updated_at: ''\n"

/-- C1 document body: a Message block (level 0) directly containing a
second Message block (level 0), then the two closing fences. -/
def c1Input : String := "\n:::message info\nA\n:::message warn\nB\n:::\n:::"

/-- C2 document: a frontmatter declaring six topics (flow style, so the
header survives the separator scan of parser.rs, which stops at the
first hyphen character), then a plain body. -/
def c2Input : String :=
  "---\ntitle: a\nemoji: b\ntype: tech\ntopics: [t1, t2, t3, t4, t5, t6]\npublished: false\n---\nbody"

/-- The header text parser.rs extracts from `c2Input`. -/
def c2header : String :=
  "title: a\nemoji: b\ntype: tech\ntopics: [t1, t2, t3, t4, t5, t6]\npublished: false\n"

/-- The frontmatter serde_yaml produces for `c2header`: six topics. -/
def c2fm : ZetaFrontmatter :=
  ⟨"a", "b", "tech", ["t1", "t2", "t3", "t4", "t5", "t6"], false, none⟩

/-- A frontmatter oracle modelling serde_yaml on `c2header`. -/
def c2ofm : String → Except (Option (Nat × Nat)) ZetaFrontmatter :=
  fun h => if h = c2header then .ok c2fm else .error none

/-- C3 document body: a Message block whose type keyword `hoge` is not
in the closed set (and starts with none of the keywords). -/
def c3Input : String := "\n:::message hoge\nHi\n:::"

/-- C3 document body: the unknown type keyword `infox`, which begins
with the prefix `info`. -/
def c3InputInfox : String := "\n:::message infox\nHi\n:::"

/-- C3 document body: the unknown type keyword `warnx`, which begins
with the prefix `warn`. -/
def c3InputWarnx : String := "\n:::message warnx\nHi\n:::"

/-- C4 document: an undeserializable frontmatter followed by a body
whose only construct is an unterminated inline footnote. -/
def c4Input : String := "---\n:bad\n---\n^[x"

/-- C5 document body: `:::message alert` on its own line, `Hello`, and
a closing fence. -/
def c5Input : String := "\n:::message alert\nHello\n:::"

/-- C6 element list: a manual footnote reference already named
`zeta.inline.1`, followed by two consecutive inline footnotes. -/
def c6doc : List Element :=
  [Element.Footnote "zeta.inline.1", Element.InlineFootnote "a",
    Element.InlineFootnote "b"]

/-- A frontmatter for the C7 documents. -/
def c7fm : ZetaFrontmatter := ⟨"t", "e", "tech", ["a"], true, none⟩

/-- C7 document without inline footnotes. -/
def c7docX : ParsedMd :=
  ⟨c7fm, [Element.Text "T", Element.Url "http://e", Element.Footnote "f",
    Element.Message 0 .Info [Element.Text "m\n"]]⟩

/-- C7 document with two inline footnotes. -/
def c7docY : ParsedMd :=
  ⟨c7fm, [Element.InlineFootnote "a", Element.InlineFootnote "b"]⟩

/-- C8 scanner input: an unterminated image span. -/
def c8Input : String := "![alt](http://x"

/-- C9 witness frontmatter without a platform restriction. -/
def c9fmA : ZetaFrontmatter := ⟨"t", "e", "tech", ["x"], true, none⟩

/-- C9 witness frontmatter identical to `c9fmA` except for `only`. -/
def c9fmB : ZetaFrontmatter := ⟨"t", "e", "tech", ["x"], true, some .Qiita⟩

/-- A concrete Zenn frontmatter serializer for the C9 witness. -/
def c9ser : ZennFrontmatter → String := fun z => z.title ++ "\n"

/-- The keyword the Zenn compiler puts after `message ` in the opening
fence, as matched in the `Element::Message` arm of
`ZennCompiler::compile_element`. -/
def zennMessageKeyword : MessageType → String
  | .Info => ""
  | .Warn => ""
  | .Alert => "alert"

/-! ## Claim theorems -/

/-- C1: the claim states that a Message or Details block nested
directly inside another block fails with `InvalidNestingLevel` when the
inner level is at least the outer level.  The code has no such check
and no such error variant (`ParseErrorType` has exactly three
variants); on `c1Input` — inner level 0 directly inside outer level 0 —
the parse succeeds: the outer block body is cut at the opening fence of
the inner block and the remainder of the inner block is emitted as
plain text. -/
theorem c1_nested_block_parses_without_error :
    Parser.parse omacNone c1Input.toList =
      (.ok [.Text "\n", .Message .Info [.Text "A\n"],
        .Text "message warn\nB\n:::\n:::"], []) := rfl

/-- C2: the claim states that more than five frontmatter topics fail
with `TooManyTopics`.  The code never inspects the topic count and
`ParseErrorType` has no such variant: a document whose frontmatter
deserializes to six topics parses successfully. -/
theorem c2_six_topics_parse_ok :
    Parser.parse_file c2ofm omacNone c2Input.toList =
      (.ok ⟨c2fm, [.Text "body"]⟩, []) ∧ c2fm.topics.length = 6 :=
  ⟨rfl, rfl⟩

/-- C3 counterexample: the claim states that a Message block with an
unknown type keyword makes the overall parse result not Ok; on
`c3Input` (keyword `hoge`) the result is Ok. -/
theorem c3_unknown_message_type_result_is_ok :
    (Parser.parse omacNone c3Input.toList).1 =
      .ok [.Text "\n", .Message .Info [.Text "Hi\n"]] := rfl

/-- C3 amended: the message type is decided by prefix lookahead
(`matches_keyword` does not anchor the keyword at the end of the word),
and no `ParseError` is ever recorded for it.  On the keyword `hoge`
(matching none of the three prefixes) the parser prints the
`Invalid message type` diagnostic at the keyword position, substitutes
`MessageType::Info`, and the parse result is Ok; on the unknown
keywords `infox` and `warnx` (which begin with the prefixes `info` and
`warn`) the parser silently accepts the block as Info respectively
Warn, with no diagnostic at all, and the parse result is again Ok. -/
theorem c3_unknown_message_type_logged_and_info :
    Parser.parse omacNone c3Input.toList =
      (.ok [.Text "\n", .Message .Info [.Text "Hi\n"]],
        [("Invalid message type", 2, 12)]) ∧
    Parser.parse omacNone c3InputInfox.toList =
      (.ok [.Text "\n", .Message .Info [.Text "Hi\n"]], []) ∧
    Parser.parse omacNone c3InputWarnx.toList =
      (.ok [.Text "\n", .Message .Warn [.Text "Hi\n"]], []) :=
  ⟨rfl, rfl, rfl⟩

/-- C4 counterexample: the claim states that after a frontmatter
deserialization failure the body is still parsed so that its structural
errors are reported in the same pass, with the error placed at the
location reported by the deserializer.  On `c4Input` with the
deserializer reporting location (1, 1), parse_file returns only the
frontmatter error and places it at row 2 (reported line plus one); the
body alone has a structural `Incomplete` error, absent from the
parse_file result. -/
theorem c4_frontmatter_error_aborts_parse :
    Parser.parse_file (fun _ => .error (some (1, 1))) omacNone c4Input.toList =
      (.error [⟨.InvalidFrontMatter, 2, 1⟩], []) ∧
    (Parser.parse omacNone "^[x".toList).1 =
      .error [⟨.Incomplete "]", 1, 4⟩] :=
  ⟨rfl, rfl⟩

/-- C4 amended: a frontmatter deserialization failure is recorded as
`InvalidFrontMatter` at (reported line + 1, reported column) — or at
the current parser position when no location is reported — and
parse_file returns immediately with the errors collected so far; the
body is not parsed. -/
theorem c4_frontmatter_error_location_and_abort :
    ∀ loc : Nat × Nat,
      Parser.parse_file (fun _ => .error (some loc)) omacNone c4Input.toList =
        (.error [⟨.InvalidFrontMatter, loc.1 + 1, loc.2⟩], []) ∧
      Parser.parse_file (fun _ => .error none) omacNone c4Input.toList =
        (.error [⟨.InvalidFrontMatter, 4, 1⟩], []) :=
  fun _ => ⟨rfl, rfl⟩

/-- C5: `:::message alert` on its own line with body `Hello` parses to
the alert Message element with body `[Text "Hello\n"]` (preceded by the
Text element holding the separating newline; the parser element type
carries no level field, the block being at top level), and the
corresponding `Element::Message{level: 0, Alert, [Text "Hello\n"]}`
renders to `:::note alert\nHello\n:::` under the Qiita compiler and to
`:::message alert\nHello\n:::` under the Zenn compiler. -/
theorem c5_message_alert_parse_and_render :
    (Parser.parse omacNone c5Input.toList).1 =
      .ok [.Text "\n", .Message .Alert [.Text "Hello\n"]] ∧
    (QiitaCompiler.compile_element idResolver 0 ⟨none, [], []⟩
        (Element.Message 0 .Alert [Element.Text "Hello\n"])).2 =
      ":::note alert\nHello\n:::" ∧
    ZennCompiler.compile_element
        (Element.Message 0 .Alert [Element.Text "Hello\n"]) =
      ":::message alert\nHello\n:::" :=
  ⟨rfl, rfl, rfl⟩

/-- C6 counterexample: the claim states that synthetic inline footnote
identifiers collide with nothing even when a manual footnote of the
same name exists.  The identifier chooser consults only the inline
footnote map (for an empty map it picks `zeta.inline.1` regardless of
manual names), so on `c6doc` — a manual reference named `zeta.inline.1`
followed by two inline footnotes — the first inline footnote is also
assigned `zeta.inline.1`: the rendered body references the identifier
twice, and the appended definition captures the manual reference. -/
theorem c6_inline_id_collides_with_manual_name :
    QiitaCompiler.compile_elements idResolver 0 ⟨none, [], []⟩ c6doc =
      (⟨none, ["zeta.inline.1"],
        [("zeta.inline.1", "a"), ("zeta.inline.2", "b")]⟩,
       "[^zeta.inline.1][^zeta.inline.1][^zeta.inline.2]\n[^zeta.inline.1]: a\n\n[^zeta.inline.2]: b\n") ∧
    QiitaCompiler.choose_name [] = "zeta.inline.1" :=
  ⟨rfl, rfl⟩

/-- C6 amended: consecutive inline footnotes receive distinct synthetic
identifiers `zeta.inline.1`, `zeta.inline.2` (the first integer unused
in the inline side table, counted from 1), and all collected bodies are
appended as definitions after the body text (in the unspecified map
iteration order); manual footnote names are not consulted, so a manual
reference with the same name does collide. -/
theorem c6_inline_ids_first_unused_and_appended :
    ∀ seed : Nat,
      QiitaCompiler.compile_elements idResolver seed ⟨none, [], []⟩ c6doc =
        (⟨none, ["zeta.inline.1"],
          [("zeta.inline.1", "a"), ("zeta.inline.2", "b")]⟩,
         "[^zeta.inline.1][^zeta.inline.1][^zeta.inline.2]" ++
           QiitaCompiler.inline_defs seed
             [("zeta.inline.1", "a"), ("zeta.inline.2", "b")]) :=
  fun _ => rfl

/-- C7 counterexample: the claim states that compiling the same parsed
document twice with the same merge metadata yields byte-identical
output across runs.  The order in which the collected inline footnote
definitions are appended is the iteration order of a Rust HashMap,
which is hash-seed dependent: on `c7docY` (two inline footnotes) two
admissible orders give different output strings. -/
theorem c7_hashmap_order_breaks_byte_identity :
    QiitaCompiler.compile qserStub idResolver 0 none c7docY ≠
      QiitaCompiler.compile qserStub idResolver 1 none c7docY := by
  have h0 : QiitaCompiler.compile qserStub idResolver 0 none c7docY =
      "---\nupdated_at: ''\n---\n[^zeta.inline.1][^zeta.inline.2]\n[^zeta.inline.1]: a\n\n[^zeta.inline.2]: b\n" :=
    rfl
  have h1 : QiitaCompiler.compile qserStub idResolver 1 none c7docY =
      "---\nupdated_at: ''\n---\n[^zeta.inline.1][^zeta.inline.2]\n[^zeta.inline.2]: b\n\n[^zeta.inline.1]: a\n" :=
    rfl
  rw [h0, h1]
  decide

/-- C7 amended: the compiler output is a function of the document, the
merge metadata, and the HashMap iteration order; with a fixed order the
output is reproducible, and for a document that collects no inline
footnotes the Qiita output does not depend on the order at all
(byte-identity across runs can only break through the appended
inline-footnote definitions). -/
theorem c7_no_inline_footnotes_seed_independent :
    ∀ seed1 seed2 : Nat,
      QiitaCompiler.compile qserStub idResolver seed1 none c7docX =
        QiitaCompiler.compile qserStub idResolver seed2 none c7docX := by
  intro seed1 seed2
  simp [QiitaCompiler.compile, QiitaCompiler.compile_elements,
    QiitaCompiler.compile_element_list, QiitaCompiler.compile_element,
    QiitaCompiler.inline_defs, mapIterOrder]

/-- C8 counterexample: the claim states that scanning the unterminated
image span `![alt](http://x` reports the `Incomplete(")")` error at the
opening parenthesis, which sits at row 1, column 7 (character index 6).
The scanner instead reports it at column 9: it restores the cursor to
just past the `](` marker (column 8) and advances one more character
before signalling. -/
theorem c8_error_not_at_open_paren :
    Scanner.scan_body osmNone c8Input.toList ≠
      .error [⟨.Incomplete ")", 1, 7⟩] ∧
    c8Input.toList.get? 6 = some (Char.ofNat 40) := by
  constructor
  · have h : Scanner.scan_body osmNone c8Input.toList =
        .error [⟨.Incomplete ")", 1, 9⟩] := rfl
    rw [h]
    simp
  · rfl

/-- C8 amended: scanning `![alt](http://x` produces exactly one scan
error, `Incomplete(")")`, reported at row 1, column 9 — the position
reached after restoring the cursor to just past the opening `](` marker
and resuming one character later — and the overall scan returns the
error list instead of a token stream. -/
theorem c8_incomplete_error_at_resume_position :
    Scanner.scan_body osmNone c8Input.toList =
      .error [⟨.Incomplete ")", 1, 9⟩] := rfl

/-- C9: the Zenn frontmatter passed to the serializer consists of
exactly the five fields title, emoji, type, topics, published copied
from the input, and the optional platform restriction `only` is never
serialized and has no effect: two frontmatters agreeing on those five
fields (however they differ in `only`) produce identical Zenn output
for any body and any serializer. -/
theorem c9_zenn_header_ignores_only :
    ∀ (ser : ZennFrontmatter → String) (fm1 fm2 : ZetaFrontmatter)
      (elements : List Element),
      fm1.title = fm2.title → fm1.emoji = fm2.emoji → fm1.type = fm2.type →
      fm1.topics = fm2.topics → fm1.published = fm2.published →
      ZennCompiler.compile ser ⟨fm1, elements⟩ =
        ZennCompiler.compile ser ⟨fm2, elements⟩ ∧
      ZennCompiler.compile_header ser fm1 =
        "---\n" ++
          ser ⟨fm1.title, fm1.emoji, fm1.type, fm1.topics, fm1.published⟩ ++
          "---\n" := by
  intro ser fm1 fm2 elements h1 h2 h3 h4 h5
  refine ⟨?_, rfl⟩
  simp [ZennCompiler.compile, ZennCompiler.compile_header, h1, h2, h3, h4, h5]

/-- C9 witness: the theorem applied to two concrete frontmatters that
differ exactly in `only`. -/
theorem c9_zenn_header_ignores_only_witness :
    c9fmA.title = c9fmB.title ∧
    ZennCompiler.compile c9ser ⟨c9fmA, []⟩ =
      ZennCompiler.compile c9ser ⟨c9fmB, []⟩ :=
  ⟨rfl, (c9_zenn_header_ignores_only c9ser c9fmA c9fmB [] rfl rfl rfl rfl rfl).1⟩

/-- C10: the Zenn compiler renders a Message of type Info or Warn with
an empty type keyword — the opening fence is `:::`, the level colons,
then `message ` (trailing space) followed directly by the newline — and
only type Alert puts the keyword `alert` after `message `. -/
theorem c10_zenn_message_keyword_only_for_alert :
    ∀ (level : Nat) (msg_type : MessageType) (body : List Element),
      ZennCompiler.compile_element (.Message level msg_type body) =
        ":::" ++ String.mk (List.replicate level (Char.ofNat 58)) ++
          "message " ++ zennMessageKeyword msg_type ++ "\n" ++
          ZennCompiler.compile_element_list body ++ ":::" ++
          String.mk (List.replicate level (Char.ofNat 58)) ∧
      zennMessageKeyword .Info = "" ∧
      zennMessageKeyword .Warn = "" ∧
      zennMessageKeyword .Alert = "alert" := by
  intro level msg_type body
  cases msg_type <;> exact ⟨rfl, rfl, rfl, rfl⟩

end Zeta






